import Mathlib

/-!
# Display density probe (build/windows/fenster)

A shallow embedding of the two native entry points of the Windows display
density probe:

* `main` of `fenster.cpp`, the command-line probe, and
* `Java_processing_core_platform_Fenster_sayHello` /
  `Java_processing_core_platform_Fenster_getLogPixels` of
  `processing_core_platform_Fenster.cpp`, the JNI binding.

Both are straight-line programs over four Win32 calls and `printf`.  The
operating system is the environment of the program: it is modelled by the
state type `World`, and every Win32 call is a function `World → result × World`
that also appends itself to a call log, so that statements about which calls
are issued, and in which order, are statements about `World.trace`.
-/

namespace Fenster

/-! ## Machine types -/

/-- A device-context handle (`HDC`); a pointer-sized value, `0` being `NULL`. -/
abbrev HDC := Nat

/-- A window handle (`HWND`); `0` is `NULL`, which designates the whole screen. -/
abbrev HWND := Nat

/-- The null pointer. -/
def NULL : Nat := 0

/-- The `JNIEnv *` argument of a JNI entry point (never dereferenced here). -/
abbrev JNIEnv := Nat

/-- The `jobject` receiver argument of a JNI entry point (never used here). -/
abbrev jobject := Nat

/-- Reduction of an integer to the 32-bit signed range
`[-2^31, 2^31)`; the value of a C `int` (`INT`), and of a `jint`. -/
def wrap32 (x : Int) : Int := (x + 2147483648) % 4294967296 - 2147483648

/-- The conversion `(jint) x` of the source: `jint` is a 32-bit signed integer. -/
def toJint (x : Int) : Int := wrap32 x

/-- Index of the horizontal density capability, `LOGPIXELSX` of `wingdi.h`. -/
def LOGPIXELSX : Int := 88

/-- Index of the vertical density capability, `LOGPIXELSY` of `wingdi.h`. -/
def LOGPIXELSY : Int := 90

/-! ## The operating system as seen by the process -/

/-- A call issued to the operating system. -/
inductive Call where
  | SetProcessDPIAware
  | GetDC (hWnd : HWND)
  | GetDeviceCaps (hdc : HDC) (index : Int)
  | ReleaseDC (hWnd : HWND) (hDC : HDC)
  deriving DecidableEq, Repr

/-- The display settings of the host.

* `grantDC hWnd held` is the handle `GetDC(hWnd)` yields while the handles
  `held` are outstanding; `NULL` when the acquisition is denied.
* `caps aware hdc index` is what the device reports for capability `index`
  to a process whose DPI-awareness is `aware`.  The page the source cites
  next to both `GetDC` calls (dpi-related-apis-and-registry-settings)
  tabulates `GetDeviceCaps(LOGPIXELSX)` by awareness: a process that never
  declared awareness is told a virtualised density, an aware one the system
  density.  A display for which the two coincide ignores the first argument. -/
structure Display where
  grantDC : HWND → List HDC → HDC
  caps : Bool → HDC → Int → Int

/-- State of the world around one process: the display settings, the device
contexts the process holds, its process-wide DPI-awareness, the text it has
written to standard output, and the log of the OS calls it has issued. -/
structure World where
  display : Display
  outstanding : List HDC
  dpiAware : Bool
  stdout : String
  trace : List Call

/-- `SetProcessDPIAware()`: declares the process DPI-aware. -/
def SetProcessDPIAware (w : World) : Int × World :=
  (1, { w with dpiAware := true, trace := w.trace ++ [Call.SetProcessDPIAware] })

/-- `GetDC(hWnd)`: asks for a device context; a granted handle is held by the
process until released. -/
def GetDC (hWnd : HWND) (w : World) : HDC × World :=
  let hdc := w.display.grantDC hWnd w.outstanding
  (hdc, { w with
    outstanding := if hdc = NULL then w.outstanding else hdc :: w.outstanding,
    trace := w.trace ++ [Call.GetDC hWnd] })

/-- `GetDeviceCaps(hdc, index)`: a read-only capability query returning an `INT`. -/
def GetDeviceCaps (hdc : HDC) (index : Int) (w : World) : Int × World :=
  (wrap32 (w.display.caps w.dpiAware hdc index),
   { w with trace := w.trace ++ [Call.GetDeviceCaps hdc index] })

/-- `ReleaseDC(hWnd, hDC)`: gives a held device context back; returns `1` when
it was released and `0` when it was not held. -/
def ReleaseDC (hWnd : HWND) (hDC : HDC) (w : World) : Int × World :=
  (if hDC ∈ w.outstanding then 1 else 0,
   { w with
     outstanding := w.outstanding.erase hDC,
     trace := w.trace ++ [Call.ReleaseDC hWnd hDC] })

/-- The text the conversion `%d` produces for an `int`: a minus sign for a
negative value, then the decimal digits of the magnitude, most significant
first, without padding. -/
def fmt_d (v : Int) : String :=
  if v < 0 then "-" ++ Nat.repr v.natAbs else Nat.repr v.natAbs

/-- `printf("%d", v)`: appends the rendering of `v` to standard output and
returns the number of characters written. -/
def printf_d (v : Int) (w : World) : Int × World :=
  ((fmt_d v).length, { w with stdout := w.stdout ++ fmt_d v })

/-! ## The two source files -/

/-- `main` of `fenster.cpp`; the first component is the exit code. -/
def main (w : World) : Int × World :=
  let (_, w) := SetProcessDPIAware w
  let (hdc, w) := GetDC NULL w
  if hdc ≠ NULL then
    let (horizontalDPI, w) := GetDeviceCaps hdc LOGPIXELSX w
    let (_verticalDPI, w) := GetDeviceCaps hdc LOGPIXELSY w
    let (_, w) := printf_d horizontalDPI w
    let (_, w) := ReleaseDC NULL hdc w
    (0, w)
  else
    (1, w)

/-- `Java_processing_core_platform_Fenster_sayHello`: the body is empty. -/
def Java_processing_core_platform_Fenster_sayHello
    (_env : JNIEnv) (_obj : jobject) (w : World) : World :=
  w

/-- `Java_processing_core_platform_Fenster_getLogPixels`; the first component
is the returned `jint`. -/
def Java_processing_core_platform_Fenster_getLogPixels
    (_env : JNIEnv) (_obj : jobject) (w : World) : Int × World :=
  let (hdc, w) := GetDC NULL w
  if hdc ≠ NULL then
    let (horizontalDPI, w) := GetDeviceCaps hdc LOGPIXELSX w
    let (_, w) := ReleaseDC NULL hdc w
    (toJint horizontalDPI, w)
  else
    (0, w)

/-! ## Observations on an execution -/

/-- The value `GetDeviceCaps` reports for `LOGPIXELSX`, in state `w`, on the
handle `GetDC(NULL)` yields in that state. -/
def reportedDensity (w : World) : Int :=
  (GetDeviceCaps (GetDC NULL w).1 LOGPIXELSX (GetDC NULL w).2).1

/-- The OS calls issued between an earlier state and a later one, in order. -/
def issued (before after : World) : List Call :=
  after.trace.drop before.trace.length

/-! ## Reading the printed text back -/

/-- Reads a run of decimal digits, most significant first, onto the
accumulator `acc`; `none` as soon as a character is not a digit. -/
def parseDigits : List Char → Nat → Option Nat
  | [], acc => some acc
  | c :: cs, acc =>
    if c.isDigit then parseDigits cs (acc * 10 + (c.toNat - 48)) else none

/-- Parses a text as a decimal integer: an optional leading minus sign
followed by at least one digit and nothing else. -/
def parseInt (s : String) : Option Int :=
  match s.data with
  | [] => none
  | c :: cs =>
    if c = '-' then
      if cs = [] then none
      else Option.map (fun n : Nat => -Int.ofNat n) (parseDigits cs 0)
    else Option.map (fun n : Nat => Int.ofNat n) (parseDigits (c :: cs) 0)

/-! ## Sample hosts -/

/-- A desktop at 150% scaling: the screen context `7` is granted, an aware
process is told 144 for either axis, an unaware one the virtualised 96. -/
def scaledDisplay : Display where
  grantDC := fun _ _ => 7
  caps := fun aware _ _ => if aware then 144 else 96

/-- A host without a display subsystem: every acquisition is denied. -/
def headlessDisplay : Display where
  grantDC := fun _ _ => 0
  caps := fun _ _ _ => 0

/-- A freshly started process on display `d`: nothing held, awareness `aware`
(as declared by the manifest of the executable), nothing printed or called. -/
def fresh (d : Display) (aware : Bool) : World :=
  { display := d, outstanding := [], dpiAware := aware, stdout := "", trace := [] }

/-! ## Unfolding the two programs -/

/-- The acquisition in `main` is the one the initial state would get: the
awareness declaration does not touch the display or the held handles. -/
theorem GetDC_after_SetProcessDPIAware (hWnd : HWND) (w : World) :
    (GetDC hWnd (SetProcessDPIAware w).2).1 = (GetDC hWnd w).1 := rfl

/-- Final state of `main` when the screen context is granted. -/
theorem main_granted (w : World) (h : (GetDC NULL w).1 ≠ NULL) :
    main w = (0,
      { display := w.display
        outstanding := w.outstanding
        dpiAware := true
        stdout := w.stdout ++
          fmt_d (wrap32 (w.display.caps true (GetDC NULL w).1 LOGPIXELSX))
        trace := w.trace ++
          [Call.SetProcessDPIAware, Call.GetDC NULL,
           Call.GetDeviceCaps (GetDC NULL w).1 LOGPIXELSX,
           Call.GetDeviceCaps (GetDC NULL w).1 LOGPIXELSY,
           Call.ReleaseDC NULL (GetDC NULL w).1] }) := by
  simp only [GetDC] at h
  simp [main, SetProcessDPIAware, GetDC, GetDeviceCaps, printf_d, ReleaseDC, h]

/-- Final state of `main` when the screen context is denied. -/
theorem main_denied (w : World) (h : (GetDC NULL w).1 = NULL) :
    main w = (1,
      { display := w.display
        outstanding := w.outstanding
        dpiAware := true
        stdout := w.stdout
        trace := w.trace ++ [Call.SetProcessDPIAware, Call.GetDC NULL] }) := by
  simp only [GetDC] at h
  simp [main, SetProcessDPIAware, GetDC, h]

/-- Final state of `getLogPixels` when the screen context is granted. -/
theorem getLogPixels_granted (env : JNIEnv) (obj : jobject) (w : World)
    (h : (GetDC NULL w).1 ≠ NULL) :
    Java_processing_core_platform_Fenster_getLogPixels env obj w =
      (toJint (wrap32 (w.display.caps w.dpiAware (GetDC NULL w).1 LOGPIXELSX)),
       { display := w.display
         outstanding := w.outstanding
         dpiAware := w.dpiAware
         stdout := w.stdout
         trace := w.trace ++
           [Call.GetDC NULL,
            Call.GetDeviceCaps (GetDC NULL w).1 LOGPIXELSX,
            Call.ReleaseDC NULL (GetDC NULL w).1] }) := by
  simp only [GetDC] at h
  simp [Java_processing_core_platform_Fenster_getLogPixels, GetDC, GetDeviceCaps,
    ReleaseDC, h]

/-- Final state of `getLogPixels` when the screen context is denied. -/
theorem getLogPixels_denied (env : JNIEnv) (obj : jobject) (w : World)
    (h : (GetDC NULL w).1 = NULL) :
    Java_processing_core_platform_Fenster_getLogPixels env obj w =
      (0,
       { display := w.display
         outstanding := w.outstanding
         dpiAware := w.dpiAware
         stdout := w.stdout
         trace := w.trace ++ [Call.GetDC NULL] }) := by
  simp only [GetDC] at h
  simp [Java_processing_core_platform_Fenster_getLogPixels, GetDC, h]

/-- A value already in the 32-bit range is not changed by a second reduction. -/
theorem wrap32_idem (x : Int) : wrap32 (wrap32 x) = wrap32 x := by
  unfold wrap32
  omega

/-- The density reported in a state is the capability entry for the awareness
of that state, reduced to an `INT`. -/
theorem reportedDensity_eq (w : World) :
    reportedDensity w =
      wrap32 (w.display.caps w.dpiAware (GetDC NULL w).1 LOGPIXELSX) := rfl

/-- Calls appended to the log are the calls issued. -/
theorem issued_append (w w' : World) (calls : List Call)
    (h : w'.trace = w.trace ++ calls) : issued w w' = calls := by
  simp [issued, h]

/-! ## What the results depend on -/

/-- The handle `GetDC(NULL)` yields depends on the display settings and the
held handles only. -/
theorem GetDC_congr (w1 w2 : World) (hd : w1.display = w2.display)
    (ho : w1.outstanding = w2.outstanding) :
    (GetDC NULL w1).1 = (GetDC NULL w2).1 := by
  simp [GetDC, hd, ho]

/-- The reported density depends on the display settings, the held handles
and the awareness of the process only. -/
theorem reportedDensity_congr (w1 w2 : World) (hd : w1.display = w2.display)
    (ho : w1.outstanding = w2.outstanding) (ha : w1.dpiAware = w2.dpiAware) :
    reportedDensity w1 = reportedDensity w2 := by
  simp [reportedDensity, GetDC, GetDeviceCaps, hd, ho, ha]

/-- Everything `main` does to the state, on either path. -/
theorem main_summary (w : World) :
    (main w).2.display = w.display ∧ (main w).2.outstanding = w.outstanding ∧
    (main w).2.dpiAware = true ∧
    (main w).1 = (if (GetDC NULL w).1 = NULL then 1 else 0) ∧
    (main w).2.stdout = w.stdout ++
      (if (GetDC NULL w).1 = NULL then ""
       else fmt_d (reportedDensity (SetProcessDPIAware w).2)) := by
  by_cases h : (GetDC NULL w).1 = NULL
  · rw [main_denied w h, if_pos h, if_pos h]
    exact ⟨rfl, rfl, rfl, rfl, (String.append_empty _).symm⟩
  · rw [main_granted w h, if_neg h, if_neg h]
    exact ⟨rfl, rfl, rfl, rfl, rfl⟩

/-- Everything `getLogPixels` does to the state, on either path. -/
theorem getLogPixels_summary (env : JNIEnv) (obj : jobject) (w : World) :
    (Java_processing_core_platform_Fenster_getLogPixels env obj w).2.display = w.display ∧
    (Java_processing_core_platform_Fenster_getLogPixels env obj w).2.outstanding =
      w.outstanding ∧
    (Java_processing_core_platform_Fenster_getLogPixels env obj w).2.dpiAware = w.dpiAware ∧
    (Java_processing_core_platform_Fenster_getLogPixels env obj w).2.stdout = w.stdout ∧
    (Java_processing_core_platform_Fenster_getLogPixels env obj w).1 =
      (if (GetDC NULL w).1 = NULL then 0 else reportedDensity w) := by
  by_cases h : (GetDC NULL w).1 = NULL
  · rw [getLogPixels_denied env obj w h, if_pos h]
    exact ⟨rfl, rfl, rfl, rfl, rfl⟩
  · rw [getLogPixels_granted env obj w h, if_neg h]
    exact ⟨rfl, rfl, rfl, rfl, wrap32_idem _⟩

/-- The calls `main` issues, on either path. -/
theorem main_issued (w : World) :
    issued w (main w).2 =
      (if (GetDC NULL w).1 = NULL then [Call.SetProcessDPIAware, Call.GetDC NULL]
       else [Call.SetProcessDPIAware, Call.GetDC NULL,
             Call.GetDeviceCaps (GetDC NULL w).1 LOGPIXELSX,
             Call.GetDeviceCaps (GetDC NULL w).1 LOGPIXELSY,
             Call.ReleaseDC NULL (GetDC NULL w).1]) := by
  by_cases h : (GetDC NULL w).1 = NULL
  · rw [main_denied w h, if_pos h]
    exact issued_append _ _ _ rfl
  · rw [main_granted w h, if_neg h]
    exact issued_append _ _ _ rfl

/-- The calls `getLogPixels` issues, on either path. -/
theorem getLogPixels_issued (env : JNIEnv) (obj : jobject) (w : World) :
    issued w (Java_processing_core_platform_Fenster_getLogPixels env obj w).2 =
      (if (GetDC NULL w).1 = NULL then [Call.GetDC NULL]
       else [Call.GetDC NULL,
             Call.GetDeviceCaps (GetDC NULL w).1 LOGPIXELSX,
             Call.ReleaseDC NULL (GetDC NULL w).1]) := by
  by_cases h : (GetDC NULL w).1 = NULL
  · rw [getLogPixels_denied env obj w h, if_pos h]
    exact issued_append _ _ _ rfl
  · rw [getLogPixels_granted env obj w h, if_neg h]
    exact issued_append _ _ _ rfl

/-! ## Reading back what `%d` wrote -/

/-- The character of a decimal digit is a digit character, its code is 48
plus the digit, and it is not the minus sign. -/
theorem digitChar_spec (k : Nat) (hk : k < 10) :
    (Nat.digitChar k).isDigit = true ∧ (Nat.digitChar k).toNat - 48 = k ∧
      Nat.digitChar k ≠ '-' := by
  interval_cases k <;> decide

/-- Reading one more digit character. -/
theorem parseDigits_digitChar (k : Nat) (hk : k < 10) (rest : List Char) (a : Nat) :
    parseDigits (Nat.digitChar k :: rest) a = parseDigits rest (a * 10 + k) := by
  obtain ⟨h1, h2, _⟩ := digitChar_spec k hk
  simp [parseDigits, h1, h2]

/-- The digit loop writes, in front of what is already there, a non-empty run
of digit characters that reads back as the number. -/
theorem toDigitsCore_spec (fuel : Nat) :
    ∀ n ds, n < fuel →
      ∃ run : List Char, Nat.toDigitsCore 10 fuel n ds = run ++ ds ∧ run ≠ [] ∧
        (∀ c ∈ run, c ≠ '-') ∧
        ∀ a rest, parseDigits (run ++ rest) a = parseDigits rest (a * 10 ^ run.length + n) := by
  induction fuel with
  | zero => intro n ds hn; omega
  | succ fuel ih =>
    intro n ds hn
    have hmod : n % 10 < 10 := Nat.mod_lt _ (by decide)
    by_cases h0 : n / 10 = 0
    · refine ⟨[Nat.digitChar (n % 10)], ?_, by simp, ?_, ?_⟩
      · simp [Nat.toDigitsCore, h0]
      · intro c hc
        simp only [List.mem_singleton] at hc
        rw [hc]
        exact (digitChar_spec _ hmod).2.2
      · intro a rest
        have hn10 : n % 10 = n := by omega
        simp only [List.singleton_append, List.length_singleton, pow_one]
        rw [parseDigits_digitChar _ hmod, hn10]
    · obtain ⟨run, hrun, hne, hminus, hparse⟩ :=
        ih (n / 10) (Nat.digitChar (n % 10) :: ds) (by omega)
      refine ⟨run ++ [Nat.digitChar (n % 10)], ?_, by simp, ?_, ?_⟩
      · simp [Nat.toDigitsCore, h0, hrun]
      · intro c hc
        rcases List.mem_append.mp hc with hc | hc
        · exact hminus c hc
        · simp only [List.mem_singleton] at hc
          rw [hc]
          exact (digitChar_spec _ hmod).2.2
      · intro a rest
        have hsplit : (a * 10 ^ run.length + n / 10) * 10 + n % 10 =
            a * 10 ^ (run.length + 1) + n := by
          have := Nat.div_add_mod n 10
          rw [pow_succ]
          nlinarith
        rw [List.append_assoc, List.singleton_append, hparse,
          parseDigits_digitChar _ hmod, List.length_append, List.length_singleton, hsplit]

/-- The decimal digits of a natural number read back as that number. -/
theorem parseDigits_toDigits (n : Nat) :
    Nat.toDigits 10 n ≠ [] ∧ (∀ c ∈ Nat.toDigits 10 n, c ≠ '-') ∧
      parseDigits (Nat.toDigits 10 n) 0 = some n := by
  obtain ⟨run, hrun, hne, hminus, hparse⟩ := toDigitsCore_spec (n + 1) n [] (by omega)
  have hrun' : Nat.toDigits 10 n = run := by simpa [Nat.toDigits] using hrun
  rw [hrun']
  refine ⟨hne, hminus, ?_⟩
  have := hparse 0 []
  simpa [parseDigits] using this

/-- What `%d` writes for an integer parses back to that integer. -/
theorem parseInt_fmt_d (v : Int) : parseInt (fmt_d v) = some v := by
  obtain ⟨hne, hminus, hparse⟩ := parseDigits_toDigits v.natAbs
  by_cases hv : v < 0
  · have hdata : (fmt_d v).data = '-' :: Nat.toDigits 10 v.natAbs := by
      simp [fmt_d, hv, Nat.repr, List.asString]
    have habs : -((v.natAbs : Nat) : Int) = v := by omega
    rw [parseInt, hdata]
    simp only [↓reduceIte, hne, hparse, Option.map_some', Int.ofNat_eq_coe, habs]
  · have hdata : (fmt_d v).data = Nat.toDigits 10 v.natAbs := by
      simp [fmt_d, hv, Nat.repr, List.asString]
    have habs : ((v.natAbs : Nat) : Int) = v := by omega
    rw [parseInt, hdata]
    cases hds : Nat.toDigits 10 v.natAbs with
    | nil => exact absurd hds hne
    | cons c cs =>
      have hc : c ≠ '-' := hminus c (by rw [hds]; exact List.mem_cons_self _ _)
      rw [hds] at hparse
      simp only [hc, ↓reduceIte, hparse, Option.map_some', Int.ofNat_eq_coe, habs]

/-! ## The command-line probe -/

/-- C1. Whenever `GetDC(NULL)` yields a non-null handle, `main` exits with
code 0 and what it writes to standard output is exactly the `%d` rendering of
the value `GetDeviceCaps` reports for `LOGPIXELSX` on that handle in the call
`main` makes (the process having just declared itself DPI-aware): the output
is the previous output followed by that rendering and nothing else, so a
process starting with empty output ends with the rendering alone; the
rendering reads back as that one integer (a sign and digits, no newline, no
second number). -/
theorem main_success (w : World) (h : (GetDC NULL w).1 ≠ NULL) :
    (main w).1 = 0 ∧
    (main w).2.stdout = w.stdout ++ fmt_d (reportedDensity (SetProcessDPIAware w).2) ∧
    (w.stdout = "" →
      (main w).2.stdout = fmt_d (reportedDensity (SetProcessDPIAware w).2)) ∧
    parseInt (fmt_d (reportedDensity (SetProcessDPIAware w).2)) =
      some (reportedDensity (SetProcessDPIAware w).2) := by
  rw [main_granted w h]
  refine ⟨rfl, rfl, ?_, parseInt_fmt_d _⟩
  intro hout
  show w.stdout ++ _ = _
  rw [hout]
  exact String.empty_append _

/-- Witness for C1: a fresh process on the 150% desktop prints `144`. -/
theorem main_success_witness :
    (GetDC NULL (fresh scaledDisplay false)).1 ≠ NULL ∧
    (main (fresh scaledDisplay false)).1 = 0 ∧
    (main (fresh scaledDisplay false)).2.stdout =
      (fresh scaledDisplay false).stdout ++
        fmt_d (reportedDensity (SetProcessDPIAware (fresh scaledDisplay false)).2) ∧
    ((fresh scaledDisplay false).stdout = "" →
      (main (fresh scaledDisplay false)).2.stdout =
        fmt_d (reportedDensity (SetProcessDPIAware (fresh scaledDisplay false)).2)) ∧
    parseInt (fmt_d (reportedDensity (SetProcessDPIAware (fresh scaledDisplay false)).2)) =
      some (reportedDensity (SetProcessDPIAware (fresh scaledDisplay false)).2) :=
  ⟨by decide, main_success (fresh scaledDisplay false) (by decide)⟩

/-- C2. Whenever `GetDC(NULL)` yields the null handle, `main` exits with code
1 and standard output is left as it was; conversely exit code 1 is returned
only when the acquisition was denied. -/
theorem main_failure (w : World) :
    ((GetDC NULL w).1 = NULL → (main w).1 = 1 ∧ (main w).2.stdout = w.stdout) ∧
    ((main w).1 = 1 → (GetDC NULL w).1 = NULL) := by
  constructor
  · intro h
    rw [main_denied w h]
    exact ⟨rfl, rfl⟩
  · intro h1
    by_contra hg
    rw [main_granted w hg] at h1
    have h01 : (0 : Int) = 1 := h1
    omega

/-- Witness for C2: a fresh process on a host without a display. -/
theorem main_failure_witness :
    (GetDC NULL (fresh headlessDisplay false)).1 = NULL ∧
    ((main (fresh headlessDisplay false)).1 = 1 ∧
      (main (fresh headlessDisplay false)).2.stdout = (fresh headlessDisplay false).stdout) ∧
    (main (fresh headlessDisplay false)).1 = 1 :=
  ⟨(main_failure (fresh headlessDisplay false)).2 (by decide),
   (main_failure (fresh headlessDisplay false)).1 (by decide),
   by decide⟩

/-! ## The JNI binding -/

/-- C3. Whenever `GetDC(NULL)` yields a non-null handle, `getLogPixels`
returns exactly the value `GetDeviceCaps` reports for `LOGPIXELSX` on that
handle; the conversion to `jint` leaves that value, an `INT`, unchanged. -/
theorem getLogPixels_success (env : JNIEnv) (obj : jobject) (w : World)
    (h : (GetDC NULL w).1 ≠ NULL) :
    (Java_processing_core_platform_Fenster_getLogPixels env obj w).1 = reportedDensity w ∧
    toJint (reportedDensity w) = reportedDensity w ∧
    (-2147483648 ≤ reportedDensity w ∧ reportedDensity w < 2147483648) := by
  rw [getLogPixels_granted env obj w h, reportedDensity_eq]
  refine ⟨wrap32_idem _, wrap32_idem _, ?_⟩
  unfold wrap32
  omega

/-- Witness for C3: an unaware host process on the 150% desktop. -/
theorem getLogPixels_success_witness :
    (GetDC NULL (fresh scaledDisplay false)).1 ≠ NULL ∧
    (Java_processing_core_platform_Fenster_getLogPixels 0 0 (fresh scaledDisplay false)).1 =
      reportedDensity (fresh scaledDisplay false) ∧
    toJint (reportedDensity (fresh scaledDisplay false)) =
      reportedDensity (fresh scaledDisplay false) ∧
    (-2147483648 ≤ reportedDensity (fresh scaledDisplay false) ∧
      reportedDensity (fresh scaledDisplay false) < 2147483648) :=
  ⟨by decide, getLogPixels_success 0 0 (fresh scaledDisplay false) (by decide)⟩

/-- C4. Whenever `GetDC(NULL)` yields the null handle, `getLogPixels` returns
0 and the only OS call it issues is that `GetDC(NULL)`: no `GetDeviceCaps` and
no `ReleaseDC` call is made. -/
theorem getLogPixels_failure (env : JNIEnv) (obj : jobject) (w : World)
    (h : (GetDC NULL w).1 = NULL) :
    (Java_processing_core_platform_Fenster_getLogPixels env obj w).1 = 0 ∧
    issued w (Java_processing_core_platform_Fenster_getLogPixels env obj w).2 =
      [Call.GetDC NULL] ∧
    (∀ hdc index, Call.GetDeviceCaps hdc index ∉
      issued w (Java_processing_core_platform_Fenster_getLogPixels env obj w).2) ∧
    (∀ hWnd hdc, Call.ReleaseDC hWnd hdc ∉
      issued w (Java_processing_core_platform_Fenster_getLogPixels env obj w).2) := by
  have hi : issued w (Java_processing_core_platform_Fenster_getLogPixels env obj w).2 =
      [Call.GetDC NULL] := by
    rw [getLogPixels_denied env obj w h]
    exact issued_append _ _ _ rfl
  rw [hi]
  refine ⟨?_, rfl, ?_, ?_⟩
  · rw [getLogPixels_denied env obj w h]
  · intro hdc index
    simp
  · intro hWnd hdc
    simp

/-- Witness for C4: a host process on a host without a display. -/
theorem getLogPixels_failure_witness :
    (GetDC NULL (fresh headlessDisplay true)).1 = NULL ∧
    (Java_processing_core_platform_Fenster_getLogPixels 0 0 (fresh headlessDisplay true)).1 = 0 ∧
    issued (fresh headlessDisplay true)
      (Java_processing_core_platform_Fenster_getLogPixels 0 0 (fresh headlessDisplay true)).2 =
      [Call.GetDC NULL] ∧
    (∀ hdc index, Call.GetDeviceCaps hdc index ∉
      issued (fresh headlessDisplay true)
        (Java_processing_core_platform_Fenster_getLogPixels 0 0 (fresh headlessDisplay true)).2) ∧
    (∀ hWnd hdc, Call.ReleaseDC hWnd hdc ∉
      issued (fresh headlessDisplay true)
        (Java_processing_core_platform_Fenster_getLogPixels 0 0 (fresh headlessDisplay true)).2) :=
  ⟨by decide, getLogPixels_failure 0 0 (fresh headlessDisplay true) (by decide)⟩

/-! ## The two surfaces side by side -/

/-- C5, as stated, fails: started as a process that has not declared DPI
awareness on the 150% desktop, `main` prints `144` (it declares awareness
first) while `getLogPixels` in that same state returns 96. -/
theorem main_getLogPixels_disagree :
    (GetDC NULL (fresh scaledDisplay false)).1 ≠ NULL ∧
    (main (fresh scaledDisplay false)).2.stdout = "144" ∧
    parseInt (main (fresh scaledDisplay false)).2.stdout = some 144 ∧
    (Java_processing_core_platform_Fenster_getLogPixels 0 0 (fresh scaledDisplay false)).1 = 96 ∧
    parseInt (main (fresh scaledDisplay false)).2.stdout ≠
      some (Java_processing_core_platform_Fenster_getLogPixels 0 0
        (fresh scaledDisplay false)).1 := by
  decide

/-- C5, amended. Whenever the acquisition succeeds, the text `main` prints,
parsed as a decimal integer, equals the value `getLogPixels` returns in that
same state provided the process is DPI-aware there, and in any case equals the
value `getLogPixels` returns in the state `main` leaves behind (where the
process is aware); zero and negative densities included. -/
theorem main_getLogPixels_agree (env : JNIEnv) (obj : jobject) (w : World)
    (h : (GetDC NULL w).1 ≠ NULL) :
    ∃ text, (main w).2.stdout = w.stdout ++ text ∧
      (w.dpiAware = true →
        parseInt text =
          some (Java_processing_core_platform_Fenster_getLogPixels env obj w).1) ∧
      parseInt text =
        some (Java_processing_core_platform_Fenster_getLogPixels env obj (main w).2).1 := by
  obtain ⟨hd, ho, ha, _, hout⟩ := main_summary w
  refine ⟨fmt_d (reportedDensity (SetProcessDPIAware w).2), ?_, ?_, ?_⟩
  · rw [hout, if_neg h]
  · intro haw
    rw [parseInt_fmt_d, (getLogPixels_summary env obj w).2.2.2.2, if_neg h]
    exact congrArg some (reportedDensity_congr _ _ rfl rfl haw.symm)
  · have hg : (GetDC NULL (main w).2).1 = (GetDC NULL w).1 := GetDC_congr _ _ hd ho
    rw [parseInt_fmt_d, (getLogPixels_summary env obj (main w).2).2.2.2.2, hg, if_neg h]
    exact congrArg some (reportedDensity_congr _ _ hd.symm ho.symm ha.symm)

/-- Witness for amended C5: a DPI-aware process on the 150% desktop. -/
theorem main_getLogPixels_agree_witness :
    (GetDC NULL (fresh scaledDisplay true)).1 ≠ NULL ∧
    (fresh scaledDisplay true).dpiAware = true ∧
    ∃ text, (main (fresh scaledDisplay true)).2.stdout =
        (fresh scaledDisplay true).stdout ++ text ∧
      ((fresh scaledDisplay true).dpiAware = true →
        parseInt text =
          some (Java_processing_core_platform_Fenster_getLogPixels 0 0
            (fresh scaledDisplay true)).1) ∧
      parseInt text =
        some (Java_processing_core_platform_Fenster_getLogPixels 0 0
          (main (fresh scaledDisplay true)).2).1 :=
  ⟨by decide, rfl, main_getLogPixels_agree 0 0 (fresh scaledDisplay true) (by decide)⟩

/-- C7, as stated, fails. On the 150% desktop `main` does not leave the state
as it found it: the process is DPI-aware afterwards and was not before. That
part of the state matters: with the same display settings and the same held
handles `getLogPixels` returns 96 to an unaware process and 144 to an aware
one, so it is not a function of the display state alone. -/
theorem main_changes_awareness :
    (main (fresh scaledDisplay false)).2.dpiAware ≠ (fresh scaledDisplay false).dpiAware ∧
    (Java_processing_core_platform_Fenster_getLogPixels 0 0 (fresh scaledDisplay false)).1 = 96 ∧
    (Java_processing_core_platform_Fenster_getLogPixels 0 0 (fresh scaledDisplay true)).1 = 144 := by
  decide

/-- C7, amended. `getLogPixels` leaves the display settings, the held handles,
the DPI-awareness and the output as it found them; `main` leaves the display
settings and the held handles as it found them and leaves the process
DPI-aware. Invoked twice in a row, `getLogPixels` returns the same value and
`main` the same exit code and the same text. The value of `getLogPixels` is a
function of display settings, held handles and awareness; exit code and text
of `main` are a function of display settings and held handles. -/
theorem repeated_invocations_stable (env : JNIEnv) (obj : jobject) (w : World) :
    ((Java_processing_core_platform_Fenster_getLogPixels env obj w).2.display = w.display ∧
      (Java_processing_core_platform_Fenster_getLogPixels env obj w).2.outstanding =
        w.outstanding ∧
      (Java_processing_core_platform_Fenster_getLogPixels env obj w).2.dpiAware = w.dpiAware ∧
      (Java_processing_core_platform_Fenster_getLogPixels env obj w).2.stdout = w.stdout) ∧
    ((main w).2.display = w.display ∧ (main w).2.outstanding = w.outstanding ∧
      (main w).2.dpiAware = true) ∧
    (Java_processing_core_platform_Fenster_getLogPixels env obj
        (Java_processing_core_platform_Fenster_getLogPixels env obj w).2).1 =
      (Java_processing_core_platform_Fenster_getLogPixels env obj w).1 ∧
    ((main (main w).2).1 = (main w).1 ∧
      ∃ text, (main w).2.stdout = w.stdout ++ text ∧
        (main (main w).2).2.stdout = (main w).2.stdout ++ text) ∧
    (∀ w2 : World, w2.display = w.display → w2.outstanding = w.outstanding →
      w2.dpiAware = w.dpiAware →
      (Java_processing_core_platform_Fenster_getLogPixels env obj w2).1 =
        (Java_processing_core_platform_Fenster_getLogPixels env obj w).1) ∧
    (∀ w2 : World, w2.display = w.display → w2.outstanding = w.outstanding →
      (main w2).1 = (main w).1 ∧
      ∃ text, (main w).2.stdout = w.stdout ++ text ∧
        (main w2).2.stdout = w2.stdout ++ text) := by
  have hjni : ∀ w2 : World, w2.display = w.display → w2.outstanding = w.outstanding →
      w2.dpiAware = w.dpiAware →
      (Java_processing_core_platform_Fenster_getLogPixels env obj w2).1 =
        (Java_processing_core_platform_Fenster_getLogPixels env obj w).1 := by
    intro w2 hd ho ha
    rw [(getLogPixels_summary env obj w2).2.2.2.2, (getLogPixels_summary env obj w).2.2.2.2,
      GetDC_congr w2 w hd ho, reportedDensity_congr w2 w hd ho ha]
  have hmain : ∀ w2 : World, w2.display = w.display → w2.outstanding = w.outstanding →
      (main w2).1 = (main w).1 ∧
      ∃ text, (main w).2.stdout = w.stdout ++ text ∧
        (main w2).2.stdout = w2.stdout ++ text := by
    intro w2 hd ho
    obtain ⟨_, _, _, hc2, hs2⟩ := main_summary w2
    obtain ⟨_, _, _, hc, hs⟩ := main_summary w
    have hg := GetDC_congr w2 w hd ho
    have hr : reportedDensity (SetProcessDPIAware w2).2 =
        reportedDensity (SetProcessDPIAware w).2 :=
      reportedDensity_congr _ _ hd ho rfl
    rw [hg] at hc2 hs2
    rw [hr] at hs2
    exact ⟨hc2.trans hc.symm, _, hs, hs2⟩
  obtain ⟨jd, jo, ja, js, _⟩ := getLogPixels_summary env obj w
  obtain ⟨md, mo, ma, _, _⟩ := main_summary w
  exact ⟨⟨jd, jo, ja, js⟩, ⟨md, mo, ma⟩, hjni _ jd jo ja, hmain _ md mo, hjni, hmain⟩

/-- Witness for amended C7: two processes on the 150% desktop that differ in
what they have printed so far. -/
theorem repeated_invocations_stable_witness :
    (Java_processing_core_platform_Fenster_getLogPixels 0 0
        (Java_processing_core_platform_Fenster_getLogPixels 0 0
          (fresh scaledDisplay false)).2).1 =
      (Java_processing_core_platform_Fenster_getLogPixels 0 0 (fresh scaledDisplay false)).1 ∧
    (Java_processing_core_platform_Fenster_getLogPixels 0 0
        { fresh scaledDisplay false with stdout := "log: " }).1 =
      (Java_processing_core_platform_Fenster_getLogPixels 0 0 (fresh scaledDisplay false)).1 ∧
    ((main { fresh scaledDisplay false with stdout := "log: " }).1 =
        (main (fresh scaledDisplay false)).1 ∧
      ∃ text, (main (fresh scaledDisplay false)).2.stdout =
          (fresh scaledDisplay false).stdout ++ text ∧
        (main { fresh scaledDisplay false with stdout := "log: " }).2.stdout =
          "log: " ++ text) :=
  ⟨(repeated_invocations_stable 0 0 (fresh scaledDisplay false)).2.2.1,
   (repeated_invocations_stable 0 0 (fresh scaledDisplay false)).2.2.2.2.1
     { fresh scaledDisplay false with stdout := "log: " } rfl rfl rfl,
   (repeated_invocations_stable 0 0 (fresh scaledDisplay false)).2.2.2.2.2
     { fresh scaledDisplay false with stdout := "log: " } rfl rfl⟩

/-! ## Which calls are issued, and in which order -/

/-- C8, as stated, fails: on the granted path `main` does query the vertical
density, `GetDeviceCaps(hdc, LOGPIXELSY)`, right after the horizontal one. -/
theorem main_queries_vertical :
    (GetDC NULL (fresh scaledDisplay false)).1 = 7 ∧
    Call.GetDeviceCaps 7 LOGPIXELSY ∈
      issued (fresh scaledDisplay false) (main (fresh scaledDisplay false)).2 := by
  decide

/-- C8, amended. `getLogPixels` issues no capability query other than the one
for `LOGPIXELSX`. `main` issues capability queries for `LOGPIXELSX` and
`LOGPIXELSY` only, and what the vertical query answers is discarded: two hosts
that differ at most in the entries for `LOGPIXELSY` get the same exit code and
the same text. -/
theorem capability_queries (env : JNIEnv) (obj : jobject) (w : World) :
    (∀ hdc index, Call.GetDeviceCaps hdc index ∈
        issued w (Java_processing_core_platform_Fenster_getLogPixels env obj w).2 →
      index = LOGPIXELSX) ∧
    (∀ hdc index, Call.GetDeviceCaps hdc index ∈ issued w (main w).2 →
      index = LOGPIXELSX ∨ index = LOGPIXELSY) ∧
    (∀ w2 : World, w2.display.grantDC = w.display.grantDC →
      (∀ aware hdc index, index ≠ LOGPIXELSY →
        w2.display.caps aware hdc index = w.display.caps aware hdc index) →
      w2.outstanding = w.outstanding →
      (main w2).1 = (main w).1 ∧
      ∃ text, (main w).2.stdout = w.stdout ++ text ∧
        (main w2).2.stdout = w2.stdout ++ text) := by
  refine ⟨?_, ?_, ?_⟩
  · intro hdc index hmem
    rw [getLogPixels_issued] at hmem
    split at hmem <;> simp at hmem
    exact hmem.2
  · intro hdc index hmem
    rw [main_issued] at hmem
    split at hmem <;> simp at hmem
    rcases hmem with hx | hy
    · exact Or.inl hx.2
    · exact Or.inr hy.2
  · intro w2 hgrant hcaps ho
    obtain ⟨_, _, _, hc2, hs2⟩ := main_summary w2
    obtain ⟨_, _, _, hc, hs⟩ := main_summary w
    have hg : (GetDC NULL w2).1 = (GetDC NULL w).1 := by
      simp [GetDC, hgrant, ho]
    have hxy : LOGPIXELSX ≠ LOGPIXELSY := by decide
    have hr : reportedDensity (SetProcessDPIAware w2).2 =
        reportedDensity (SetProcessDPIAware w).2 := by
      simp [reportedDensity, SetProcessDPIAware, GetDC, GetDeviceCaps, hgrant, ho,
        hcaps _ _ _ hxy]
    rw [hg] at hc2 hs2
    rw [hr] at hs2
    exact ⟨hc2.trans hc.symm, _, hs, hs2⟩

/-- Witness for amended C8: the 150% desktop against a host that reports a
different vertical density. -/
theorem capability_queries_witness :
    (Call.GetDeviceCaps 7 LOGPIXELSX ∈
        issued (fresh scaledDisplay false)
          (Java_processing_core_platform_Fenster_getLogPixels 0 0
            (fresh scaledDisplay false)).2 ∧
      LOGPIXELSX = LOGPIXELSX) ∧
    ((main (fresh
          { grantDC := fun _ _ => 7,
            caps := fun aware _ index =>
              if index = LOGPIXELSY then 120 else if aware then 144 else 96 } false)).1 =
        (main (fresh scaledDisplay false)).1 ∧
      ∃ text, (main (fresh scaledDisplay false)).2.stdout =
          (fresh scaledDisplay false).stdout ++ text ∧
        (main (fresh
          { grantDC := fun _ _ => 7,
            caps := fun aware _ index =>
              if index = LOGPIXELSY then 120 else if aware then 144 else 96 } false)).2.stdout =
          "" ++ text) :=
  ⟨⟨by decide,
    (capability_queries 0 0 (fresh scaledDisplay false)).1 7 LOGPIXELSX (by decide)⟩,
   (capability_queries 0 0 (fresh scaledDisplay false)).2.2
     (fresh
       { grantDC := fun _ _ => 7,
         caps := fun aware _ index =>
           if index = LOGPIXELSY then 120 else if aware then 144 else 96 } false)
     rfl
     (by
       intro aware hdc index hne
       simp [fresh, scaledDisplay, hne])
     rfl⟩

/-- C9. The handle `GetDC(NULL)` yields is given back exactly once, by
`ReleaseDC(NULL, hdc)` with that handle, as the last OS call before the
function returns; every `GetDeviceCaps` call on it lies between the
acquisition and the release; the process holds afterwards exactly the handles
it held before. When the acquisition is denied no `ReleaseDC` (and no
`GetDeviceCaps`) call is issued. -/
theorem scoped_acquire_release (env : JNIEnv) (obj : jobject) (w : World) :
    ((GetDC NULL w).1 ≠ NULL →
      issued w (main w).2 =
        [Call.SetProcessDPIAware, Call.GetDC NULL,
         Call.GetDeviceCaps (GetDC NULL w).1 LOGPIXELSX,
         Call.GetDeviceCaps (GetDC NULL w).1 LOGPIXELSY,
         Call.ReleaseDC NULL (GetDC NULL w).1] ∧
      issued w (Java_processing_core_platform_Fenster_getLogPixels env obj w).2 =
        [Call.GetDC NULL,
         Call.GetDeviceCaps (GetDC NULL w).1 LOGPIXELSX,
         Call.ReleaseDC NULL (GetDC NULL w).1]) ∧
    ((GetDC NULL w).1 = NULL →
      issued w (main w).2 = [Call.SetProcessDPIAware, Call.GetDC NULL] ∧
      issued w (Java_processing_core_platform_Fenster_getLogPixels env obj w).2 =
        [Call.GetDC NULL]) ∧
    (main w).2.outstanding = w.outstanding ∧
    (Java_processing_core_platform_Fenster_getLogPixels env obj w).2.outstanding =
      w.outstanding := by
  refine ⟨?_, ?_, (main_summary w).2.1, (getLogPixels_summary env obj w).2.1⟩
  · intro h
    rw [main_issued, getLogPixels_issued, if_neg h, if_neg h]
    exact ⟨rfl, rfl⟩
  · intro h
    rw [main_issued, getLogPixels_issued, if_pos h, if_pos h]
    exact ⟨rfl, rfl⟩

/-- Witness for C9: the granted path on the 150% desktop, the denied path on
a host without a display. -/
theorem scoped_acquire_release_witness :
    ((GetDC NULL (fresh scaledDisplay false)).1 ≠ NULL ∧
      issued (fresh scaledDisplay false) (main (fresh scaledDisplay false)).2 =
        [Call.SetProcessDPIAware, Call.GetDC NULL,
         Call.GetDeviceCaps (GetDC NULL (fresh scaledDisplay false)).1 LOGPIXELSX,
         Call.GetDeviceCaps (GetDC NULL (fresh scaledDisplay false)).1 LOGPIXELSY,
         Call.ReleaseDC NULL (GetDC NULL (fresh scaledDisplay false)).1] ∧
      issued (fresh scaledDisplay false)
          (Java_processing_core_platform_Fenster_getLogPixels 0 0
            (fresh scaledDisplay false)).2 =
        [Call.GetDC NULL,
         Call.GetDeviceCaps (GetDC NULL (fresh scaledDisplay false)).1 LOGPIXELSX,
         Call.ReleaseDC NULL (GetDC NULL (fresh scaledDisplay false)).1]) ∧
    ((GetDC NULL (fresh headlessDisplay false)).1 = NULL ∧
      issued (fresh headlessDisplay false) (main (fresh headlessDisplay false)).2 =
        [Call.SetProcessDPIAware, Call.GetDC NULL] ∧
      issued (fresh headlessDisplay false)
          (Java_processing_core_platform_Fenster_getLogPixels 0 0
            (fresh headlessDisplay false)).2 =
        [Call.GetDC NULL]) :=
  ⟨⟨by decide, (scoped_acquire_release 0 0 (fresh scaledDisplay false)).1 (by decide)⟩,
   ⟨by decide, (scoped_acquire_release 0 0 (fresh headlessDisplay false)).2.1 (by decide)⟩⟩

/-- C10. On either path `main` issues `SetProcessDPIAware` exactly once, as
its first OS call, hence before the acquisition and before any density query.
The JNI entry points never issue it: `sayHello` issues no call at all,
`getLogPixels` issues none of that kind, and both leave the DPI-awareness of
the process as the host set it. -/
theorem dpi_awareness_declaration (env : JNIEnv) (obj : jobject) (w : World) :
    (∃ rest, issued w (main w).2 = Call.SetProcessDPIAware :: rest ∧
      Call.SetProcessDPIAware ∉ rest) ∧
    (issued w (main w).2).count Call.SetProcessDPIAware = 1 ∧
    issued w (Java_processing_core_platform_Fenster_sayHello env obj w) = [] ∧
    (Java_processing_core_platform_Fenster_sayHello env obj w).dpiAware = w.dpiAware ∧
    Call.SetProcessDPIAware ∉
      issued w (Java_processing_core_platform_Fenster_getLogPixels env obj w).2 ∧
    (Java_processing_core_platform_Fenster_getLogPixels env obj w).2.dpiAware =
      w.dpiAware := by
  refine ⟨?_, ?_, ?_, rfl, ?_, (getLogPixels_summary env obj w).2.2.1⟩
  · rw [main_issued]
    split
    · exact ⟨_, rfl, by simp⟩
    · exact ⟨_, rfl, by simp⟩
  · rw [main_issued]
    split <;> simp
  · simp [issued, Java_processing_core_platform_Fenster_sayHello]
  · rw [getLogPixels_issued]
    split <;> simp

end Fenster
